import Mathlib

/-!
Shallow embedding of REACConnection.cpp (pereckerdal/reacdriver) and proofs about the
connection engine it implements: the drift-corrected periodic timer, the inbound frame
validation and sequence-gap detection, the connect/disconnect edge logic, the outbound
packet construction, and the start/stop lifecycle.

Machine integers are modelled as Nat (with explicit mod 2^64 where the C code performs
UInt64 wrapping arithmetic) or Int (for the signed drift computation the source performs
via SInt64). External collaborators (the work loop, the timer event source, the network
filter, mbuf allocation, the data-stream component and the three client callbacks) are
modelled as explicit inputs to the transition functions; the observable calls the engine
makes on them are recorded as events.
-/

namespace REAC

/-- Protocol role, the REACMode enum (REAC_MASTER / REAC_SLAVE). -/
inductive REACMode where
  | master
  | slave
deriving DecidableEq, Repr

/-- REACDeviceInfo: a 6-byte peer address plus input/output channel counts
(populated with fixed placeholder values in initWithInterface, lines 61-72). -/
structure REACDeviceInfo where
  addr : List Nat
  in_channels : Nat
  out_channels : Nat
deriving DecidableEq, Repr

/-- Modelled from the spec: the compile-time wire constants declared in REACConnection.h
and REACConstants, which are not among the provided sources: REAC_SAMPLES_PER_PACKET,
REAC_RESOLUTION (bytes per sample), REAC_PACKETS_PER_SECOND, the size of the opaque part
of REACPacketHeader beyond its 16-bit counter, the trailing marker bytes
(REACConstants.ENDING, two bytes: the length check at line 377 uses sizeof(UInt16) for it)
and the two protocol discriminator bytes (REACConstants.PROTOCOL). -/
structure WireConfig where
  samplesPerPacket : Nat
  resolution : Nat
  packetsPerSecond : Nat
  hdrDataSize : Nat
  ending : List Nat
  protocol : List Nat
deriving DecidableEq, Repr

/-- Modelled from the spec: REACPacketHeader (declared in the header file, which is not
among the provided sources): a 16-bit wrapping sequence counter plus opaque
collaborator-computed fields. -/
structure REACPacketHeader where
  counter : Nat
  data : List Nat
deriving DecidableEq, Repr

/-- Modelled from the spec: getCounter() reads the 16-bit sequence counter field of
REACPacketHeader. -/
def REACPacketHeader.getCounter (h : REACPacketHeader) : Nat := h.counter

/-- Size in bytes of the serialized REACPacketHeader. -/
def hdrSize (cfg : WireConfig) : Nat := 2 + cfg.hdrDataSize

/-- Modelled from the spec: the byte layout of REACPacketHeader on the wire - the 16-bit
counter (two bytes, low byte first) followed by the opaque fields. -/
def serializeHeader (h : REACPacketHeader) : List Nat :=
  h.counter % 256 :: h.counter / 256 % 256 :: h.data

/-- Modelled from the spec: reading a REACPacketHeader back from its wire bytes
(the inverse of serializeHeader for well-formed headers). -/
def parseHeader (cfg : WireConfig) (bytes : List Nat) : REACPacketHeader :=
  { counter := bytes.getD 0 0 + 256 * bytes.getD 1 0
    data := (bytes.drop 2).take cfg.hdrDataSize }

/-- The IOReturn result codes pushSamples can produce:
success, a generic error (kIOReturnError), kIOReturnInvalid, kIOReturnBadArgument. -/
inductive ReturnCode where
  | success
  | error
  | invalid
  | badArgument
deriving DecidableEq, Repr

/-- Observable calls the engine makes on its collaborators:
connectionChange records an invocation of the connection callback with the given identity
(none models the NULL device-info pointer); samplesCopied records the byte copy into the
buffer provided by the samples callback; gotPacketToStream records the gotPacket call on
the data stream; sentFrame records a frame handed to ifnet_output_raw; lostPacketLog and
sizeMismatchLog record the two diagnostic log messages the spec treats as observable.
Other IOLog calls on drop paths are not modelled as events. -/
inductive REACEvent where
  | connectionChange (identity : Option REACDeviceInfo)
  | samplesCopied (buffer : List Nat)
  | gotPacketToStream (header : REACPacketHeader)
  | sentFrame (frame : List Nat)
  | lostPacketLog (lastCounter received : Nat)
  | sizeMismatchLog
deriving DecidableEq, Repr

/-- The per-connection engine state: the fields of the REACConnection object that the
transition functions read and write. connectionCounter, lastSeenConnectionCounter and
timeoutNS are UInt64 in the source (modelled as Nat with explicit mod 2^64 where the code
wraps); lastCounter is the 16-bit sequence counter; nextTime is a UInt64 of nanoseconds in
the source but all arithmetic on it in timerFired is signed (SInt64), so it is an Int here.
The three callbackSet flags model whether the corresponding callback pointer is non-NULL.
timerAdded / timerArmed / filterInstalled model the externally held resources that start()
acquires and stop() releases. -/
structure EngineState where
  mode : REACMode
  started : Bool
  connected : Bool
  connectionCounter : Nat
  lastSeenConnectionCounter : Nat
  lastCounter : Nat
  timeoutNS : Nat
  nextTime : Int
  timerAdded : Bool
  timerArmed : Bool
  filterInstalled : Bool
  deviceInfo : REACDeviceInfo
  connectionCallbackSet : Bool
  samplesCallbackSet : Bool
  getSamplesCallbackSet : Bool
deriving DecidableEq, Repr

/-- isConnected(): returns the connected flag. -/
def EngineState.isConnected (s : EngineState) : Bool := s.connected

/-- 2^64, the modulus of the UInt64 arithmetic in the source. -/
def u64Mod : Nat := 18446744073709551616

/-- External inputs consumed by one call to pushSamples / getAndPushSamples:
the sample buffer produced by the getSamplesCallback (none models a NULL pointer, the
buffer size is its length), the outcome and output of dataStream->processPacket, whether
mbuf allocation and ifnet_output_raw succeed, and the initial (uninitialized) contents of
the freshly allocated mbuf. -/
structure PushEnv where
  sampleBuf : Option (List Nat)
  processOk : Bool
  rph : REACPacketHeader
  allocOk : Bool
  sendOk : Bool
  junk : List Nat
deriving DecidableEq, Repr

/-- External inputs consumed by one call to filterCommandGateMsg: the destination buffer
provided by the samplesCallback (none models a NULL pointer) and the inputs of the
slave-mode reply transmission. -/
structure InEnv where
  sinkBuf : Option (List Nat)
  push : PushEnv
deriving DecidableEq, Repr

/-- Modelled from the spec: MbufUtils copy into an mbuf (MbufUtils is not among the
provided sources; the spec describes the copies as plain byte copies). Writes src into dst
at the given offset, failing exactly when the write would run past the end of the buffer,
which is when the MbufUtils helpers return a non-success code. -/
def mbufWrite (dst : List Nat) (off : Nat) (src : List Nat) : Option (List Nat) :=
  if off + src.length ≤ dst.length then
    some (dst.take off ++ src ++ dst.drop (off + src.length))
  else
    none

/-- The frame construction of REACConnection::pushSamples (lines 288-333): the sequence of
copies into the freshly allocated mbuf - the 14-byte ethernet header (broadcast addresses
and the protocol discriminator), the REAC packet header produced by
dataStream->processPacket, the sample block (copied from sampleBuffer if non-NULL,
zero-filled otherwise) and the trailing marker. Each failing copy makes the whole build
fail (the source jumps to Done and drops the packet). -/
def buildOutboundFrame (cfg : WireConfig) (s : EngineState) (env : PushEnv)
    (sampleBuffer : Option (List Nat)) : Option (List Nat) :=
  let samplesSize := cfg.samplesPerPacket * cfg.resolution * s.deviceInfo.out_channels
  let sampleOffset := 14 + hdrSize cfg
  let endingOffset := sampleOffset + samplesSize
  let packetLen := endingOffset + cfg.ending.length
  let m0 := (env.junk ++ List.replicate packetLen 0).take packetLen
  let ethBytes := List.replicate 6 255 ++ List.replicate 6 255 ++ cfg.protocol
  (mbufWrite m0 0 ethBytes).bind fun m1 =>
  (mbufWrite m1 14 (serializeHeader env.rph)).bind fun m2 =>
  (match sampleBuffer with
   | some b => mbufWrite m2 sampleOffset b
   | none => mbufWrite m2 sampleOffset (List.replicate samplesSize 0)).bind fun m3 =>
  mbufWrite m3 endingOffset cfg.ending

/-- REACConnection::pushSamples (lines 263-354): builds and transmits one outbound frame.
The argument check at line 277 rejects with kIOReturnBadArgument when a non-NULL buffer's
size EQUALS samplesSize (bufSize is ignored when the buffer is NULL); a non-NULL buffer of
any other size proceeds and its bufSize bytes are copied at the sample offset. Then the
data stream processing, the mbuf allocation, the copy chain and the transmission, each
failure dropping the packet with kIOReturnError. -/
def pushSamples (cfg : WireConfig) (s : EngineState) (env : PushEnv)
    (sampleBuffer : Option (List Nat)) : ReturnCode × List REACEvent :=
  if ¬ (s.mode = REACMode.slave ∨ s.mode = REACMode.master) then
    (ReturnCode.invalid, [])
  else if sampleBuffer.isSome ∧ (sampleBuffer.getD []).length
            = cfg.samplesPerPacket * cfg.resolution * s.deviceInfo.out_channels then
    (ReturnCode.badArgument, [])
  else if ¬ env.processOk then
    (ReturnCode.error, [])
  else if ¬ env.allocOk then
    (ReturnCode.error, [])
  else
    match buildOutboundFrame cfg s env sampleBuffer with
    | none => (ReturnCode.error, [])
    | some m4 =>
      if env.sendOk then (ReturnCode.success, [REACEvent.sentFrame m4])
      else (ReturnCode.error, [])

/-- REACConnection::getAndPushSamples (lines 254-261): asks the getSamplesCallback for a
buffer (the buffer stays NULL when the callback is not set) and hands it to pushSamples. -/
def getAndPushSamples (cfg : WireConfig) (s : EngineState) (env : PushEnv) :
    ReturnCode × List REACEvent :=
  pushSamples cfg s env (if s.getSamplesCallbackSet then env.sampleBuf else none)

/-- REACConnection::timerFired (lines 218-252): the scheduler firing. While connected,
checks the idle product (connectionCounter - lastSeenConnectionCounter) * timeoutNS in
UInt64 arithmetic against 1000 ms; when it is exceeded the source sets connected to TRUE
(the literal assignment at line 229) and invokes the connection callback with NULL, then
increments connectionCounter. A master then sends one packet. Finally the next timeout is
rearmed as timeoutNS + (nextTime - thisTimeNS) and nextTime is advanced by timeoutNS.
Returns the new state, the events, and the rearmed timeout value. -/
def timerFired (cfg : WireConfig) (s : EngineState) (thisTimeNS : Int) (env : PushEnv) :
    EngineState × List REACEvent × Int :=
  let p :=
    if s.isConnected = true then
      if (s.connectionCounter + u64Mod - s.lastSeenConnectionCounter) % u64Mod
           * s.timeoutNS % u64Mod > 1000 * 1000000 then
        ({ s with connected := true, connectionCounter := s.connectionCounter + 1 },
         if s.connectionCallbackSet = true then [REACEvent.connectionChange none] else [])
      else
        ({ s with connectionCounter := s.connectionCounter + 1 }, [])
    else (s, ([] : List REACEvent))
  let evs2 := if p.1.mode = REACMode.master then (getAndPushSamples cfg p.1 env).2 else []
  ({ p.1 with nextTime := s.nextTime + (s.timeoutNS : Int) },
   (p.2 ++ evs2, (s.timeoutNS : Int) + (s.nextTime - thisTimeNS)))

/-- REACConnection::filterCommandGateMsg (lines 356-448): processes one inbound frame
(the mbuf handed over by the input filter, which excludes the link-layer header).
A master returns immediately (lines 366-368). Then: length check against
sizeof(REACPacketHeader) + samplesSize + sizeof(UInt16); fetch of the trailing marker
bytes (mbuf_copydata, which fails when the requested range runs past the frame) and
comparison against REACConstants.ENDING; header fetch; lost-packet diagnostic (only while
connected, with the 65535 to 0 wraparound excluded); the connect edge when not yet
connected (callback with the device info); lastSeenConnectionCounter snapshot; sample
delivery into the samplesCallback's buffer (skipped with a log when its size differs from
bytesPerPacket) plus dataStream->gotPacket; the slave reply transmission; and finally
lastCounter is updated from the received header. -/
def filterCommandGateMsg (cfg : WireConfig) (s : EngineState) (frame : List Nat)
    (env : InEnv) : EngineState × List REACEvent :=
  if s.mode = REACMode.master then (s, [])
  else
    if hdrSize cfg + cfg.samplesPerPacket * cfg.resolution * s.deviceInfo.in_channels + 2
         ≠ frame.length then
      (s, [])
    else if ¬ (hdrSize cfg + cfg.samplesPerPacket * cfg.resolution * s.deviceInfo.in_channels
                 + cfg.ending.length ≤ frame.length) then
      (s, [])
    else if (frame.drop (hdrSize cfg + cfg.samplesPerPacket * cfg.resolution
                           * s.deviceInfo.in_channels)).take cfg.ending.length
              ≠ cfg.ending then
      (s, [])
    else
      let packetHeader := parseHeader cfg (frame.take (hdrSize cfg))
      let gapEvs :=
        if s.isConnected = true ∧ s.lastCounter + 1 ≠ packetHeader.getCounter ∧
             ¬ (s.lastCounter = 65535 ∧ packetHeader.counter = 0) then
          [REACEvent.lostPacketLog s.lastCounter packetHeader.getCounter]
        else []
      let connEvs :=
        if s.isConnected = false ∧ s.connectionCallbackSet = true then
          [REACEvent.connectionChange (some s.deviceInfo)]
        else []
      let s1 := if s.isConnected = false then { s with connected := true } else s
      let s2 := { s1 with lastSeenConnectionCounter := s1.connectionCounter }
      let dataEvs :=
        if s2.isConnected = true then
          (if s2.samplesCallbackSet = true then
            (match env.sinkBuf with
             | some b =>
               if b.length ≠ cfg.resolution * s.deviceInfo.in_channels
                              * cfg.samplesPerPacket then
                 [REACEvent.sizeMismatchLog]
               else
                 [REACEvent.samplesCopied ((frame.drop (hdrSize cfg)).take b.length)]
             | none => []) ++ [REACEvent.gotPacketToStream packetHeader]
           else [])
          ++ (if s2.mode = REACMode.slave then (getAndPushSamples cfg s2 env.push).2 else [])
        else []
      ({ s2 with lastCounter := packetHeader.getCounter }, gapEvs ++ connEvs ++ dataEvs)

/-- REACConnection::start (lines 162-193): adds the timer event source to the work loop
(addOk models the NULL check and the addEventSource outcome together), arms the first
timeout and records the first deadline, then attaches the input filter (attachOk models
the iflt_attach outcome). On attach failure the source returns false WITHOUT removing or
cancelling the timer event source. -/
def start (s : EngineState) (addOk attachOk : Bool) (now : Int) : EngineState × Bool :=
  if ¬ addOk then (s, false)
  else
    let s1 := { s with timerAdded := true, timerArmed := true,
                       nextTime := now + (s.timeoutNS : Int) }
    if ¬ attachOk then (s1, false)
    else ({ s1 with filterInstalled := true, started := true }, true)

/-- REACConnection::stop (lines 195-212): when started, cancels the timeout and removes
the timer event source, invokes the connection callback with NULL if isConnected() (and
the callback is set), detaches the filter and clears started. The connected flag is not
touched. When not started the call does nothing. -/
def stop (s : EngineState) : EngineState × List REACEvent :=
  if s.started then
    let s1 := { s with timerArmed := false, timerAdded := false }
    let evs :=
      if s1.isConnected then
        if s1.connectionCallbackSet then [REACEvent.connectionChange none] else []
      else []
    ({ s1 with filterInstalled := false, started := false }, evs)
  else (s, [])

/-- The engine state produced by REACConnection::initWithInterface (lines 26-102):
counters zeroed, not started, not connected, the fixed placeholder device info of lines
65-72, and the role-determined timer cadence of lines 87-95 (master: one second divided by
REAC_PACKETS_PER_SECOND; slave: the 400 ms connection check interval). nextTime is only
given a value by start(). -/
def initialState (cfg : WireConfig) (mode : REACMode) (ccb scb gcb : Bool) : EngineState :=
  { mode := mode
    started := false
    connected := false
    connectionCounter := 0
    lastSeenConnectionCounter := 0
    lastCounter := 0
    timeoutNS := if mode = REACMode.master then 1000000000 / cfg.packetsPerSecond
                 else 400 * 1000000
    nextTime := 0
    timerAdded := false
    timerArmed := false
    filterInstalled := false
    deviceInfo := { addr := [0, 64, 171, 196, 128, 246], in_channels := 16, out_channels := 8 }
    connectionCallbackSet := ccb
    samplesCallbackSet := scb
    getSamplesCallbackSet := gcb }

/-- The inbound validation and extraction of filterCommandGateMsg (lines 376-398 and 435)
viewed as a pure decoder on the frame body handed over by the input filter: length check,
trailing marker fetch and comparison, then the parsed header and the sample block. -/
def decodeFrame (cfg : WireConfig) (inCh : Nat) (frame : List Nat) :
    Option (REACPacketHeader × List Nat) :=
  let samplesSize := cfg.samplesPerPacket * cfg.resolution * inCh
  if hdrSize cfg + samplesSize + 2 ≠ frame.length then none
  else if ¬ (hdrSize cfg + samplesSize + cfg.ending.length ≤ frame.length) then none
  else if (frame.drop (hdrSize cfg + samplesSize)).take cfg.ending.length ≠ cfg.ending then
    none
  else
    some (parseHeader cfg (frame.take (hdrSize cfg)),
          (frame.drop (hdrSize cfg)).take samplesSize)

/-- A frame body that passes all three structural checks of filterCommandGateMsg for the
given configuration and input channel count. -/
def validFrame (cfg : WireConfig) (inCh : Nat) (frame : List Nat) : Prop :=
  hdrSize cfg + cfg.samplesPerPacket * cfg.resolution * inCh + 2 = frame.length
  ∧ hdrSize cfg + cfg.samplesPerPacket * cfg.resolution * inCh + cfg.ending.length
      ≤ frame.length
  ∧ (frame.drop (hdrSize cfg + cfg.samplesPerPacket * cfg.resolution * inCh)).take
      cfg.ending.length = cfg.ending

instance (cfg : WireConfig) (inCh : Nat) (frame : List Nat) :
    Decidable (validFrame cfg inCh frame) := by
  unfold validFrame
  infer_instance

/-- Processing a sequence of inbound frames, each with its own external inputs, through
filterCommandGateMsg, collecting all events. -/
def runFrames (cfg : WireConfig) : EngineState → List (List Nat × InEnv) →
    EngineState × List REACEvent
  | s, [] => (s, [])
  | s, p :: rest =>
    let r := filterCommandGateMsg cfg s p.1 p.2
    let r2 := runFrames cfg r.1 rest
    (r2.1, r.2 ++ r2.2)

/-- The closed-loop firing sequence of the drift-corrected timer: firing n+1 happens at
the time of firing n plus the timeout rearmed there plus an injected jitter err (n+1);
firing 0 is at an arbitrary time t0 in the state s0 left by start(). Returns the fire
time and the engine state before each firing. -/
def fireSeq (cfg : WireConfig) (s0 : EngineState) (env : PushEnv) (err : Nat → Int)
    (t0 : Int) : Nat → Int × EngineState
  | 0 => (t0, s0)
  | n + 1 =>
    let p := fireSeq cfg s0 env err t0 n
    let r := timerFired cfg p.2 p.1 env
    (p.1 + r.2.2 + err (n + 1), r.1)

/-- The frame transmitted by a pushSamples result, when there is one. -/
def sentPayload (r : ReturnCode × List REACEvent) : List Nat :=
  match r.2 with
  | [REACEvent.sentFrame f] => f
  | _ => []

/-- Whether an event is an invocation of the connection callback. -/
def isConnEvent : REACEvent → Bool
  | REACEvent.connectionChange _ => true
  | _ => false

/-- Whether an event is a lost-packet diagnostic. -/
def isLostPacketLog : REACEvent → Bool
  | REACEvent.lostPacketLog _ _ => true
  | _ => false

/-- The number of connection callback invocations in an event list. -/
def countConn (evs : List REACEvent) : Nat := evs.countP isConnEvent

/-- A concrete example configuration used to evaluate the model: one 1-byte sample per
packet, a header with no opaque part, and two-byte marker and discriminator constants. -/
def cfgA : WireConfig :=
  { samplesPerPacket := 1
    resolution := 1
    packetsPerSecond := 8000
    hdrDataSize := 0
    ending := [234, 234]
    protocol := [136, 25] }

/-- The example configuration with one opaque header byte, to exercise the header fields
in the codec round trip. -/
def cfgB : WireConfig :=
  { cfgA with hdrDataSize := 1 }

/-- An example device with two channels each way, so that the outbound and inbound sample
block sizes agree. -/
def devC : REACDeviceInfo :=
  { addr := [0, 64, 171, 196, 128, 246]
    in_channels := 2
    out_channels := 2 }

/-- Push inputs where every external step succeeds and processPacket yields the all-zero
header. -/
def envP : PushEnv :=
  { sampleBuf := none
    processOk := true
    rph := { counter := 0, data := [] }
    allocOk := true
    sendOk := true
    junk := [] }

/-- Inbound inputs with no sink buffer and the quiet push inputs. -/
def envI : InEnv :=
  { sinkBuf := none
    push := envP }

/-- Push inputs whose freshly allocated mbuf is filled with the recognizable byte 9, to
observe which bytes of the outbound frame a copy leaves untouched. -/
def envP2 : PushEnv := { envP with junk := List.replicate 20 9 }

/-- Push inputs where processPacket yields a header with counter 258 and one opaque
byte 42, to exercise the codec round trip. -/
def envP5 : PushEnv := { envP with rph := { counter := 258, data := [42] } }

/-- A connected slave engine that has seen 1001 idle scheduler firings since the last
valid inbound packet, with a 1 ms firing period, so the idle product is 1001 ms and the
1000 ms disconnect threshold is exceeded. -/
def sConn : EngineState :=
  { mode := REACMode.slave
    started := true
    connected := true
    connectionCounter := 1001
    lastSeenConnectionCounter := 0
    lastCounter := 0
    timeoutNS := 1000000
    nextTime := 0
    timerAdded := true
    timerArmed := true
    filterInstalled := true
    deviceInfo := devC
    connectionCallbackSet := true
    samplesCallbackSet := false
    getSamplesCallbackSet := false }

/-- The connected slave engine, before any inbound packet (disconnected). -/
def sDisc : EngineState := { sConn with connected := false }

/-- The connected slave engine with lastCounter at the 16-bit maximum. -/
def sWrap : EngineState := { sConn with lastCounter := 65535 }

/-- The connected slave engine with lastCounter 5. -/
def sGap : EngineState := { sConn with lastCounter := 5 }

/-- A disconnected MASTER engine. -/
def sMaster : EngineState := { sConn with mode := REACMode.master, connected := false }

/-- A valid frame body for cfgA and two input channels carrying the given sequence
counter: header bytes, a zero sample block, the trailing marker. -/
def fCtr (c : Nat) : List Nat := [c % 256, c / 256 % 256, 0, 0, 234, 234]

/-- A valid frame body for cfgA and the 16 input channels of the placeholder device
info, carrying sequence counter 7. -/
def f16 : List Nat := [7, 0] ++ List.replicate 16 0 ++ [234, 234]

/-- A freshly initialized slave engine (all three callbacks set) after a successful
start(). -/
def sStarted : EngineState :=
  (start (initialState cfgA REACMode.slave true true true) true true 0).1

/-- The started slave engine after one valid inbound packet, hence connected. -/
def sLive : EngineState := (filterCommandGateMsg cfgA sStarted f16 envI).1


lemma pushSamples_shape (cfg : WireConfig) (s : EngineState) (env : PushEnv)
    (b : Option (List Nat)) :
    (pushSamples cfg s env b).2 = []
    ∨ ∃ f, (pushSamples cfg s env b).2 = [REACEvent.sentFrame f] := by
  unfold pushSamples
  split_ifs <;>
    first
      | simp
      | (cases h : buildOutboundFrame cfg s env b <;> simp [h])

lemma pushSamples_countP (cfg : WireConfig) (s : EngineState) (env : PushEnv)
    (b : Option (List Nat)) (p : REACEvent → Bool)
    (hp : ∀ f, p (REACEvent.sentFrame f) = false) :
    (pushSamples cfg s env b).2.countP p = 0 := by
  rcases pushSamples_shape cfg s env b with h | ⟨f, h⟩ <;> rw [h] <;>
    simp [List.countP_cons, List.countP_nil, hp]

lemma getAndPushSamples_countConn (cfg : WireConfig) (s : EngineState) (env : PushEnv) :
    (getAndPushSamples cfg s env).2.countP isConnEvent = 0 :=
  pushSamples_countP cfg s env _ isConnEvent (fun _ => rfl)

lemma getAndPushSamples_countLost (cfg : WireConfig) (s : EngineState) (env : PushEnv) :
    (getAndPushSamples cfg s env).2.countP isLostPacketLog = 0 :=
  pushSamples_countP cfg s env _ isLostPacketLog (fun _ => rfl)

lemma timerFired_fields (cfg : WireConfig) (s : EngineState) (t : Int) (env : PushEnv) :
    (timerFired cfg s t env).1.timeoutNS = s.timeoutNS
    ∧ (timerFired cfg s t env).1.nextTime = s.nextTime + (s.timeoutNS : Int)
    ∧ (timerFired cfg s t env).2.2 = (s.timeoutNS : Int) + (s.nextTime - t) := by
  unfold timerFired
  repeat' split
  all_goals simp

lemma timerFired_connected (cfg : WireConfig) (s : EngineState) (t : Int) (env : PushEnv)
    (h : s.connected = true) : (timerFired cfg s t env).1.connected = true := by
  unfold timerFired
  repeat' split
  all_goals simp_all [EngineState.isConnected]

lemma filterCommandGateMsg_invalid (cfg : WireConfig) (s : EngineState) (frame : List Nat)
    (env : InEnv) (h : ¬ validFrame cfg s.deviceInfo.in_channels frame) :
    filterCommandGateMsg cfg s frame env = (s, []) := by
  by_cases hm : s.mode = REACMode.master
  · simp [filterCommandGateMsg, hm]
  unfold validFrame at h
  push_neg at h
  by_cases h1 : hdrSize cfg + cfg.samplesPerPacket * cfg.resolution * s.deviceInfo.in_channels
      + 2 = frame.length
  · by_cases h2 : hdrSize cfg + cfg.samplesPerPacket * cfg.resolution * s.deviceInfo.in_channels
        + cfg.ending.length ≤ frame.length
    · have h3 := h h1 h2
      simp [filterCommandGateMsg, hm, h1, h2, h3]
    · simp [filterCommandGateMsg, hm, h1, h2]
  · simp [filterCommandGateMsg, hm, h1]

lemma filterCommandGateMsg_connected (cfg : WireConfig) (s : EngineState) (frame : List Nat)
    (env : InEnv) (h : s.connected = true) :
    (filterCommandGateMsg cfg s frame env).1.connected = true
    ∧ countConn (filterCommandGateMsg cfg s frame env).2 = 0 := by
  by_cases hv : validFrame cfg s.deviceInfo.in_channels frame
  case neg =>
    rw [filterCommandGateMsg_invalid cfg s frame env hv]
    exact ⟨h, rfl⟩
  case pos =>
    rcases hmode : s.mode with _ | _
    · simp [filterCommandGateMsg, hmode, h, countConn]
    · obtain ⟨h1, h2, h3⟩ := hv
      rcases henv : env.sinkBuf with _ | b <;>
        simp only [filterCommandGateMsg, hmode, h1, h2, h3, henv, h,
          EngineState.isConnected, countConn, List.countP_append, List.countP_cons,
          List.countP_nil, isConnEvent, getAndPushSamples_countConn, if_true, if_false,
          ite_true, ite_false, reduceCtorEq, and_false, false_and, Bool.true_eq_false,
          ne_eq, not_true_eq_false, if_neg, not_false_eq_true] <;>
        split_ifs <;>
        simp [countConn, List.countP_append, List.countP_cons, List.countP_nil,
          isConnEvent, getAndPushSamples_countConn]

lemma filterCommandGateMsg_edge (cfg : WireConfig) (s : EngineState) (frame : List Nat)
    (env : InEnv) (hmode : s.mode = REACMode.slave) (h : s.connected = false)
    (hcb : s.connectionCallbackSet = true)
    (hv : validFrame cfg s.deviceInfo.in_channels frame) :
    (filterCommandGateMsg cfg s frame env).1.connected = true
    ∧ countConn (filterCommandGateMsg cfg s frame env).2 = 1
    ∧ REACEvent.connectionChange (some s.deviceInfo) ∈ (filterCommandGateMsg cfg s frame env).2 := by
  obtain ⟨h1, h2, h3⟩ := hv
  rcases henv : env.sinkBuf with _ | b <;>
    simp only [filterCommandGateMsg, hmode, h1, h2, h3, henv, h, hcb,
      EngineState.isConnected, countConn, List.countP_append, List.countP_cons,
      List.countP_nil, isConnEvent, getAndPushSamples_countConn, if_true, if_false,
      ite_true, ite_false, reduceCtorEq, and_false, false_and, Bool.true_eq_false,
      ne_eq, not_true_eq_false, if_neg, not_false_eq_true, List.mem_append,
      List.mem_cons, List.not_mem_nil, and_self] <;>
    split_ifs <;>
    simp_all [countConn, List.countP_append, List.countP_cons, List.countP_nil,
      isConnEvent, getAndPushSamples_countConn]

lemma filterCommandGateMsg_countLost_disconnected (cfg : WireConfig) (s : EngineState)
    (frame : List Nat) (env : InEnv) (h : s.connected = false) :
    (filterCommandGateMsg cfg s frame env).2.countP isLostPacketLog = 0 := by
  by_cases hv : validFrame cfg s.deviceInfo.in_channels frame
  case neg =>
    rw [filterCommandGateMsg_invalid cfg s frame env hv]
    simp
  case pos =>
    rcases hmode : s.mode with _ | _
    · simp [filterCommandGateMsg, hmode]
    · obtain ⟨h1, h2, h3⟩ := hv
      rcases henv : env.sinkBuf with _ | b <;>
        simp only [filterCommandGateMsg, hmode, h1, h2, h3, henv, h,
          EngineState.isConnected, List.countP_append, List.countP_cons,
          List.countP_nil, isLostPacketLog, getAndPushSamples_countLost, if_true, if_false,
          ite_true, ite_false, reduceCtorEq, and_false, false_and, Bool.true_eq_false,
          ne_eq, not_true_eq_false, if_neg, not_false_eq_true] <;>
        split_ifs <;>
        simp [List.countP_append, List.countP_cons, List.countP_nil,
          isLostPacketLog, getAndPushSamples_countLost]

lemma runFrames_connected (cfg : WireConfig) :
    ∀ (l : List (List Nat × InEnv)) (s : EngineState), s.connected = true →
      (runFrames cfg s l).1.connected = true ∧ countConn (runFrames cfg s l).2 = 0 := by
  intro l
  induction l with
  | nil => intro s h; exact ⟨h, rfl⟩
  | cons p rest ih =>
    intro s h
    have hstep := filterCommandGateMsg_connected cfg s p.1 p.2 h
    have hrest := ih (filterCommandGateMsg cfg s p.1 p.2).1 hstep.1
    refine ⟨by simpa [runFrames] using hrest.1, ?_⟩
    simp only [runFrames, countConn, List.countP_append] at *
    omega


/-- Claim C1. The claim states that at a scheduler firing where the idle product exceeds
1000 ms a Connected engine transitions to Disconnected and the disconnect callback fires
exactly once per edge. Evaluating timerFired on the engine sConn, whose idle product is
1001 ms: the callback is invoked with a null identity, but the connected flag REMAINS
true (line 229 assigns true, not false), and the immediately following firing invokes the
callback with a null identity AGAIN, so no transition happens and the callback is not
once-per-edge. The final conjunct shows the code agrees with the claim on the threshold
itself: at an idle product of exactly 1000 ms no callback fires. -/
theorem timer_idle_timeout_eval :
    (timerFired cfgA sConn 0 envP).2.1 = [REACEvent.connectionChange none]
    ∧ (timerFired cfgA sConn 0 envP).1.connected = true
    ∧ (timerFired cfgA (timerFired cfgA sConn 0 envP).1 0 envP).2.1
        = [REACEvent.connectionChange none]
    ∧ (timerFired cfgA { sConn with connectionCounter := 1000 } 0 envP).2.1 = [] := by
  decide

/-- Claim C2. The claim states that a samples-needed buffer of exactly
samplesPerPacket * resolutionBytes * outChannels bytes (here 1 * 1 * 2 = 2) is accepted
and copied, while any other size skips the payload copy. Evaluating pushSamples on sConn:
the correctly sized buffer [5, 6] is REJECTED with kIOReturnBadArgument and no frame is
sent, while the wrongly sized buffer [5] IS accepted, the packet is transmitted, and its
two-byte sample block is [5, 9] - the copied byte followed by an uninitialized mbuf byte
(the junk fill 9), i.e. a partial, corrupted copy. The argument check at line 277 is
inverted with respect to the claim. -/
theorem push_size_check_eval :
    pushSamples cfgA sConn envP2 (some [5, 6]) = (ReturnCode.badArgument, [])
    ∧ (pushSamples cfgA sConn envP2 (some [5])).1 = ReturnCode.success
    ∧ sentPayload (pushSamples cfgA sConn envP2 (some [5]))
        = [255, 255, 255, 255, 255, 255, 255, 255, 255, 255, 255, 255,
           136, 25, 0, 0, 5, 9, 234, 234]
    ∧ ((sentPayload (pushSamples cfgA sConn envP2 (some [5]))).drop 16).take 2 = [5, 9] := by
  decide

/-- Claim C3, counterexample. The claim states the Disconnected to Connected transition
happens on the first structurally valid inbound packet REGARDLESS OF ROLE. For the
disconnected MASTER engine sMaster and the structurally valid frame fCtr 0,
filterCommandGateMsg returns at the mode check (lines 366-368): the state is unchanged,
the engine stays disconnected and no callback is invoked. -/
theorem connect_edge_master_cex :
    sMaster.connected = false
    ∧ validFrame cfgA sMaster.deviceInfo.in_channels (fCtr 0)
    ∧ filterCommandGateMsg cfgA sMaster (fCtr 0) envI = (sMaster, [])
    ∧ ¬ (filterCommandGateMsg cfgA sMaster (fCtr 0) envI).1.connected = true := by
  decide

/-- Claim C3 (amended): for a SLAVE engine in the Disconnected state with a registered
connection callback, processing any nonempty sequence of structurally valid inbound
packets invokes the connection callback exactly once, with the placeholder device
identity; a Master engine bypasses inbound processing entirely and never connects on this
path. -/
theorem connect_edge_once_slave (cfg : WireConfig) (s : EngineState)
    (l : List (List Nat × InEnv)) (hmode : s.mode = REACMode.slave)
    (hconn : s.connected = false) (hcb : s.connectionCallbackSet = true)
    (hne : l ≠ [])
    (hvalid : ∀ p ∈ l, validFrame cfg s.deviceInfo.in_channels p.1) :
    countConn (runFrames cfg s l).2 = 1
    ∧ REACEvent.connectionChange (some s.deviceInfo) ∈ (runFrames cfg s l).2 := by
  cases l with
  | nil => exact absurd rfl hne
  | cons p rest =>
    have hv := hvalid p (List.mem_cons_self p rest)
    have hstep := filterCommandGateMsg_edge cfg s p.1 p.2 hmode hconn hcb hv
    have hrest := runFrames_connected cfg rest (filterCommandGateMsg cfg s p.1 p.2).1 hstep.1
    constructor
    · simp only [runFrames, countConn, List.countP_append] at *
      omega
    · simp only [runFrames, List.mem_append]
      exact Or.inl hstep.2.2

/-- Witness for connect_edge_once_slave: the disconnected slave engine sDisc processing
two valid frames fires the connection callback exactly once. -/
theorem connect_edge_once_slave_witness :
    countConn (runFrames cfgA sDisc [(fCtr 0, envI), (fCtr 6, envI)]).2 = 1
    ∧ REACEvent.connectionChange (some sDisc.deviceInfo)
        ∈ (runFrames cfgA sDisc [(fCtr 0, envI), (fCtr 6, envI)]).2 :=
  connect_edge_once_slave cfgA sDisc [(fCtr 0, envI), (fCtr 6, envI)]
    rfl rfl rfl (by decide) (by decide)

/-- Claim C4. Sequence-gap detection on a valid inbound packet: for the connected engine
sWrap with lastCounter 65535, a frame carrying counter 0 produces no lost-packet
diagnostic (wraparound); for the connected engine sGap with lastCounter 5, a frame
carrying counter 7 produces the lost-packet diagnostic, while a frame carrying the direct
successor 6 produces none; and for ANY engine whose connected flag is still false (i.e.
before the first connect edge, since the gap check at line 401 precedes the connect edge
at line 410), no inbound frame whatsoever produces a lost-packet diagnostic. -/
theorem sequence_gap_detection :
    (filterCommandGateMsg cfgA sWrap (fCtr 0) envI).2.countP isLostPacketLog = 0
    ∧ REACEvent.lostPacketLog 5 7 ∈ (filterCommandGateMsg cfgA sGap (fCtr 7) envI).2
    ∧ (filterCommandGateMsg cfgA sGap (fCtr 6) envI).2.countP isLostPacketLog = 0
    ∧ ∀ (cfg : WireConfig) (s : EngineState) (frame : List Nat) (env : InEnv),
        s.connected = false →
        (filterCommandGateMsg cfg s frame env).2.countP isLostPacketLog = 0 := by
  refine ⟨by decide, by decide, by decide, ?_⟩
  intro cfg s frame env h
  exact filterCommandGateMsg_countLost_disconnected cfg s frame env h

/-- Witness for sequence_gap_detection: its universally quantified part applied to the
disconnected slave engine sDisc and a valid frame. -/
theorem sequence_gap_detection_witness :
    (filterCommandGateMsg cfgA sDisc (fCtr 9) envI).2.countP isLostPacketLog = 0 :=
  sequence_gap_detection.2.2.2 cfgA sDisc (fCtr 9) envI rfl

/-- Claim C5. The claim states decode(encode(header, samples)) recovers the header fields
and sample bytes for any correctly sized sample buffer. Encoding is pushSamples; its
inverted size check (line 277) rejects exactly the correctly sized buffers, so for the
buffer [10, 11] of the correct size 2 no frame is ever encoded (kIOReturnBadArgument) and
the round trip cannot even start. For the silence case (no buffer) the round trip does
hold: the frame built by pushSamples, stripped of its 14-byte ethernet header (which the
host's input filter consumes before delivery), decodes to exactly the header produced by
processPacket - counter 258, opaque byte 42 - and the zero sample block. -/
theorem codec_roundtrip_eval :
    pushSamples cfgB sConn envP5 (some [10, 11]) = (ReturnCode.badArgument, [])
    ∧ (pushSamples cfgB sConn envP5 none).1 = ReturnCode.success
    ∧ decodeFrame cfgB 2 ((sentPayload (pushSamples cfgB sConn envP5 none)).drop 14)
        = some ({ counter := 258, data := [42] }, [0, 0]) := by
  decide

/-- Claim C6: a malformed inbound frame - wrong total length, or correct length with a
trailing marker that does not match the constant - leaves the engine state completely
unchanged (in particular lastCounter and lastSeenConnectionCounter) and produces no
events: no callback is invoked, nothing is transmitted. -/
theorem malformed_frame_no_effect (cfg : WireConfig) (s : EngineState) (frame : List Nat)
    (env : InEnv) (h : ¬ validFrame cfg s.deviceInfo.in_channels frame) :
    filterCommandGateMsg cfg s frame env = (s, []) :=
  filterCommandGateMsg_invalid cfg s frame env h

/-- Witness for malformed_frame_no_effect: a three-byte frame (wrong length) against the
connected slave engine sConn. -/
theorem malformed_frame_no_effect_witness :
    filterCommandGateMsg cfgA sConn [1, 2, 3] envI = (sConn, []) :=
  malformed_frame_no_effect cfgA sConn [1, 2, 3] envI (by decide)

/-- Claim C7, counterexample. The claim states that when start() fails because a
sub-resource cannot be acquired, everything acquired so far is released and no timer is
left armed. Starting a freshly initialized engine where adding the timer event source
succeeds but iflt_attach fails: start returns false, yet the timer event source is still
added to the work loop and its timeout is still armed (the early return at line 187
releases nothing). -/
theorem start_failure_leak_cex :
    (start (initialState cfgA REACMode.slave true true true) true false 0).2 = false
    ∧ (start (initialState cfgA REACMode.slave true true true) true false 0).1.timerArmed
        = true
    ∧ (start (initialState cfgA REACMode.slave true true true) true false 0).1.timerAdded
        = true := by
  decide

/-- Claim C7 (amended): if start() fails because the timer event source is missing or
cannot be added to the work loop, it reports failure with nothing acquired; if it fails
because the inbound frame hook cannot be attached, it reports the failure to the caller
but does NOT release the timer: the timer event source remains added and its timeout
armed (no filter is installed and the engine is not marked started in that case); when
both acquisitions succeed, start() succeeds with the timer armed and the filter
installed. -/
theorem start_failure_behavior (s : EngineState) (now : Int) :
    (∀ b, start s false b now = (s, false))
    ∧ ((start s true false now).2 = false
       ∧ (start s true false now).1.timerAdded = true
       ∧ (start s true false now).1.timerArmed = true
       ∧ (start s true false now).1.filterInstalled = s.filterInstalled
       ∧ (start s true false now).1.started = s.started)
    ∧ ((start s true true now).2 = true
       ∧ (start s true true now).1.started = true
       ∧ (start s true true now).1.filterInstalled = true
       ∧ (start s true true now).1.timerArmed = true) := by
  refine ⟨fun b => ?_, ⟨?_, ?_, ?_, ?_, ?_⟩, ?_, ?_, ?_, ?_⟩ <;> simp [start]

/-- Claim C8, counterexample. The claim states stop() invokes the disconnect callback
exactly once if and only if isConnected() is true at the time of the call, and clears the
connection state. Take the started, connected engine sLive (reached by initializing,
starting, and processing one valid inbound packet): the first stop() fires the callback
once, but it does NOT clear the connected flag - isConnected() is still true afterwards -
and a second stop(), called while isConnected() is true, fires no callback, violating the
claimed biconditional. -/
theorem stop_connected_flag_cex :
    sLive.started = true
    ∧ (stop sLive).2 = [REACEvent.connectionChange none]
    ∧ (stop sLive).1.isConnected = true
    ∧ (stop (stop sLive).1).2 = [] := by
  decide

/-- Claim C8 (amended): stop() is idempotent and safe before start() or after a previous
stop(). When the engine is not started it does nothing. When it is started it cancels the
scheduler, uninstalls the frame filter, clears the started flag, and invokes the
connection callback with a null identity exactly once if and only if the engine is
connected (and a callback is registered) - but it leaves the connected flag set. Two
consecutive stop() calls never fire the callback on the second call. -/
theorem stop_behavior (s : EngineState) :
    (s.started = false → stop s = (s, []))
    ∧ (s.started = true →
        (stop s).1.started = false
        ∧ (stop s).1.timerArmed = false
        ∧ (stop s).1.timerAdded = false
        ∧ (stop s).1.filterInstalled = false
        ∧ (stop s).1.connected = s.connected
        ∧ (stop s).2 = (if s.connected = true then
              (if s.connectionCallbackSet = true then [REACEvent.connectionChange none]
               else [])
            else []))
    ∧ (stop (stop s).1).2 = [] := by
  refine ⟨fun h => by simp [stop, h], fun h => ?_, ?_⟩
  · refine ⟨?_, ?_, ?_, ?_, ?_, ?_⟩ <;>
      simp [stop, h, EngineState.isConnected]
  · by_cases h : s.started <;> simp [stop, h, EngineState.isConnected]

/-- Witness for stop_behavior: the freshly initialized (never started) engine is left
untouched, and stopping the started engine sLive clears its started flag. -/
theorem stop_behavior_witness :
    stop (initialState cfgA REACMode.slave true true true)
      = (initialState cfgA REACMode.slave true true true, [])
    ∧ (stop sLive).1.started = false :=
  ⟨(stop_behavior (initialState cfgA REACMode.slave true true true)).1 rfl,
   ((stop_behavior sLive).2.1 (by decide)).1⟩

/-- Claim C9: on every firing, timerFired rearms the next timeout as timeoutNS plus the
signed difference between the scheduled deadline (nextTime) and the actual fire time,
and advances the scheduled deadline by exactly timeoutNS; consequently, in the closed
loop fireSeq where each firing lands at the armed time plus an arbitrary jitter err,
every firing n lands exactly at the n-th nominal deadline plus its own jitter only (no
accumulation), so with jitter bounded by E the total duration of any n firings deviates
from the nominal n * timeoutNS cadence by at most 2 * E. -/
theorem timer_drift_correction :
    (∀ (cfg : WireConfig) (s : EngineState) (t : Int) (env : PushEnv),
      (timerFired cfg s t env).2.2 = (s.timeoutNS : Int) + (s.nextTime - t)
      ∧ (timerFired cfg s t env).1.nextTime = s.nextTime + (s.timeoutNS : Int))
    ∧ ∀ (cfg : WireConfig) (s0 : EngineState) (env : PushEnv) (err : Nat → Int)
        (t0 E : Int) (n : Nat), (∀ k, |err k| ≤ E) → 1 ≤ n →
        (fireSeq cfg s0 env err t0 n).1
          = s0.nextTime + (n : Int) * (s0.timeoutNS : Int) + err n
        ∧ |(fireSeq cfg s0 env err t0 n).1 - (fireSeq cfg s0 env err t0 1).1
            - ((n : Int) - 1) * (s0.timeoutNS : Int)| ≤ 2 * E := by
  constructor
  · intro cfg s t env
    exact ⟨(timerFired_fields cfg s t env).2.2, (timerFired_fields cfg s t env).2.1⟩
  · intro cfg s0 env err t0 E n hE hn
    have hinv : ∀ m, (fireSeq cfg s0 env err t0 m).2.nextTime
          = s0.nextTime + (m : Int) * (s0.timeoutNS : Int)
        ∧ (fireSeq cfg s0 env err t0 m).2.timeoutNS = s0.timeoutNS := by
      intro m
      induction m with
      | zero => simp [fireSeq]
      | succ k ih =>
        have hf := timerFired_fields cfg (fireSeq cfg s0 env err t0 k).2
          (fireSeq cfg s0 env err t0 k).1 env
        refine ⟨?_, ?_⟩
        · show (timerFired cfg (fireSeq cfg s0 env err t0 k).2
              (fireSeq cfg s0 env err t0 k).1 env).1.nextTime = _
          rw [hf.2.1, ih.1, ih.2]
          push_cast
          ring
        · show (timerFired cfg (fireSeq cfg s0 env err t0 k).2
              (fireSeq cfg s0 env err t0 k).1 env).1.timeoutNS = _
          rw [hf.1, ih.2]
    have htime : ∀ m, (fireSeq cfg s0 env err t0 (m + 1)).1
        = s0.nextTime + ((m : Int) + 1) * (s0.timeoutNS : Int) + err (m + 1) := by
      intro m
      have hf := timerFired_fields cfg (fireSeq cfg s0 env err t0 m).2
        (fireSeq cfg s0 env err t0 m).1 env
      show (fireSeq cfg s0 env err t0 m).1
          + (timerFired cfg (fireSeq cfg s0 env err t0 m).2
              (fireSeq cfg s0 env err t0 m).1 env).2.2 + err (m + 1) = _
      rw [hf.2.2, (hinv m).2, (hinv m).1]
      ring
    obtain ⟨m, rfl⟩ : ∃ m, n = m + 1 := ⟨n - 1, by omega⟩
    have h1 := htime m
    have h2 := htime 0
    constructor
    · rw [h1]
      push_cast
      ring
    · have : (fireSeq cfg s0 env err t0 (m + 1)).1 - (fireSeq cfg s0 env err t0 1).1
          - (((m + 1 : Nat) : Int) - 1) * (s0.timeoutNS : Int) = err (m + 1) - err 1 := by
        rw [h1, h2]
        push_cast
        ring
      rw [this]
      calc |err (m + 1) - err 1| ≤ |err (m + 1)| + |err 1| := by
            rw [sub_eq_add_neg]
            exact (abs_add _ _).trans (by rw [abs_neg])
        _ ≤ E + E := add_le_add (hE (m + 1)) (hE 1)
        _ = 2 * E := by ring

/-- Witness for timer_drift_correction: its convergence part applied to the started
engine sStarted with zero jitter over three firings. -/
theorem timer_drift_correction_witness :
    (fireSeq cfgA sStarted envP (fun _ => 0) 0 3).1
      = sStarted.nextTime + ((3 : Nat) : Int) * (sStarted.timeoutNS : Int) + 0
    ∧ |(fireSeq cfgA sStarted envP (fun _ => 0) 0 3).1
        - (fireSeq cfgA sStarted envP (fun _ => 0) 0 1).1
        - (((3 : Nat) : Int) - 1) * (sStarted.timeoutNS : Int)| ≤ 2 * 0 :=
  timer_drift_correction.2 cfgA sStarted envP (fun _ => 0) 0 0 3
    (fun k => by simp) (by decide)

/-- Claim C10: the connected flag is monotone - once an engine is connected, processing
any inbound frame, any scheduler firing (including one whose idle product exceeds the
disconnect threshold, which assigns true again), stop(), and start() all leave the
connected flag true. -/
theorem connected_monotone (cfg : WireConfig) (s : EngineState) (t : Int) (envp : PushEnv)
    (frame : List Nat) (env : InEnv) (addOk attachOk : Bool) (now : Int)
    (h : s.connected = true) :
    (timerFired cfg s t envp).1.connected = true
    ∧ (filterCommandGateMsg cfg s frame env).1.connected = true
    ∧ (stop s).1.connected = true
    ∧ (start s addOk attachOk now).1.connected = true := by
  refine ⟨timerFired_connected cfg s t envp h,
    (filterCommandGateMsg_connected cfg s frame env h).1, ?_, ?_⟩
  · unfold stop
    split_ifs <;> simp [h]
  · unfold start
    split_ifs <;> simp [h]

/-- Witness for connected_monotone: the connected engine sConn stays connected under all
four operations, here with the frame fCtr 3 and a two-tick-late firing. -/
theorem connected_monotone_witness :
    (timerFired cfgA sConn 2 envP).1.connected = true
    ∧ (filterCommandGateMsg cfgA sConn (fCtr 3) envI).1.connected = true
    ∧ (stop sConn).1.connected = true
    ∧ (start sConn true true 0).1.connected = true :=
  connected_monotone cfgA sConn 2 envP (fCtr 3) envI true true 0 rfl

end REAC
